import Mathlib

/-!
Verification of the Gamepad device-handle core of GamepadUtils
(src/src/Gamepad.cpp together with include/gamepad/Gamepad.h,
include/gamepad/GamepadStatus.h, include/gamepad/JSEvent.h).

The C++ class `Gamepad` is embedded shallowly: its fields become a Lean
structure, each member function becomes a Lean function on that structure.
Outcomes of system calls (`open`, `read`, `close`, `errno`) are passed in
explicitly as arguments, since the C++ code receives them from the OS.
An out-of-bounds `std::array::operator[]` write is undefined behaviour in
C++; such an access is modelled by returning `none`.
-/

/-- The status enum from GamepadStatus.h.  `ERROR` (the spec calls it
GENERIC_ERROR) has underlying value -3, `IO_ERROR` -2,
`INVALID_FILE_ERROR` -1, `OK` 0. -/
inductive GamepadStatus where
  | ERROR
  | IO_ERROR
  | INVALID_FILE_ERROR
  | OK
deriving DecidableEq

/-- The underlying integer value of each enumerator, as declared in
GamepadStatus.h. -/
def GamepadStatus.toInt : GamepadStatus → Int
  | .ERROR => -3
  | .IO_ERROR => -2
  | .INVALID_FILE_ERROR => -1
  | .OK => 0

/-- Linux errno values used in Gamepad::updateStatus (asm-generic values on
the target platform): EBADF = 9, EINVAL = 22, EIO = 5, EAGAIN = 11. -/
def EBADF : Int := 9

/-- Linux errno EINVAL. -/
def EINVAL : Int := 22

/-- Linux errno EIO (named `Eio` here because `EIO` is taken in Lean). -/
def Eio : Int := 5

/-- Linux errno EAGAIN (EWOULDBLOCK has the same value on Linux). -/
def EAGAIN : Int := 11

/-- The event record from JSEvent.h: `uint time` (milliseconds),
`short value`, `uint8_t type` (1 = button, 2 = axis), `uint8_t number`
(axis/button index). -/
structure JSEvent where
  time : Nat
  value : Int
  type : Nat
  number : Nat
deriving DecidableEq

/-- The state of a `Gamepad` object (Gamepad.h): the device path, the file
descriptor `fd` (-1 when no stream is open), the `reconnecting` flag, the
`status` enum, and the latest-value caches `axes : std::array<short, 6>`
and `buttons : std::array<short, 15>`, modelled as functions from indices. -/
structure Gamepad where
  path : String
  fd : Int
  reconnecting : Bool
  status : GamepadStatus
  axes : Fin 6 → Int
  buttons : Fin 15 → Int

/-- A `Gamepad` whose descriptor is closed and whose caches are all zero
(the in-class initializers `axes{}` / `buttons{}` zero both arrays; the
constructor sets `fd = -1` and `reconnecting = false`). -/
def initGamepad : Gamepad :=
  ⟨"/dev/input/js0", -1, false, GamepadStatus.OK, fun _ => 0, fun _ => 0⟩

/-- Gamepad::updateStatus (Gamepad.cpp lines 146-171) as the pure mapping
from the errno value to the new status: EBADF and EINVAL give
INVALID_FILE_ERROR, EIO gives IO_ERROR, EAGAIN gives OK, and any other
value falls to the default case, ERROR. -/
def statusOfErr (err : Int) : GamepadStatus :=
  if err = EBADF then GamepadStatus.INVALID_FILE_ERROR
  else if err = EINVAL then GamepadStatus.INVALID_FILE_ERROR
  else if err = Eio then GamepadStatus.IO_ERROR
  else if err = EAGAIN then GamepadStatus.OK
  else GamepadStatus.ERROR

/-- Gamepad::updateStatus as a state transformer: it writes
`statusOfErr err` into the `status` field and changes nothing else. -/
def Gamepad.updateStatus (s : Gamepad) (err : Int) : Gamepad :=
  {s with status := statusOfErr err}

/-- Gamepad::getStatus (Gamepad.cpp lines 101-104). -/
def Gamepad.getStatus (s : Gamepad) : GamepadStatus :=
  s.status

/-- Gamepad::getErr (Gamepad.cpp lines 110-113): `status < GamepadStatus::OK`,
an enum comparison on the underlying values. -/
def Gamepad.getErr (s : Gamepad) : Bool :=
  if s.status.toInt < GamepadStatus.OK.toInt then true else false

/-- Gamepad::getAxis (Gamepad.cpp lines 76-82): an index that is at least
`axes.size()` (the constant 6 of `std::array<short, 6>`) or negative
returns 0; otherwise the cached axis value is returned.  (In the C++
guard `index >= this->axes.size()` the negative index converts to a huge
unsigned value, so either reading of the guard rejects it.) -/
def Gamepad.getAxis (s : Gamepad) (index : Int) : Int :=
  if h : 6 ≤ index ∨ index < 0 then 0
  else s.axes ⟨index.toNat, by omega⟩

/-- Gamepad::getButton (Gamepad.cpp lines 89-95): same shape as getAxis
against the 15-entry `buttons` array. -/
def Gamepad.getButton (s : Gamepad) (index : Int) : Int :=
  if h : 15 ≤ index ∨ index < 0 then 0
  else s.buttons ⟨index.toNat, by omega⟩

/-- The body of the drain loop of Gamepad::refresh (Gamepad.cpp lines
56-59) for one successfully read record: `if (event.type == 1)
buttons[event.number] = event.value; else if (event.type == 2)
axes[event.number] = event.value;`.  The writes are unchecked
`std::array::operator[]` accesses, so when `event.number` is outside the
array the C++ behaviour is undefined; that case is modelled as `none`. -/
def Gamepad.processEvent (s : Gamepad) (e : JSEvent) : Option Gamepad :=
  if e.type = 1 then
    if h : e.number < 15 then
      some {s with buttons := Function.update s.buttons ⟨e.number, h⟩ e.value}
    else none
  else if e.type = 2 then
    if h : e.number < 6 then
      some {s with axes := Function.update s.axes ⟨e.number, h⟩ e.value}
    else none
  else some s

/-- The drain loop of Gamepad::refresh (Gamepad.cpp lines 54-60) over the
list of records that `safeRead` delivers before it first returns a
non-positive count: each record is folded into the caches in order. -/
def Gamepad.drainEvents (s : Gamepad) : List JSEvent → Option Gamepad
  | [] => some s
  | e :: rest => (s.processEvent e).bind fun s1 => s1.drainEvents rest

/-- Gamepad::stopReconnectionThread (Gamepad.cpp lines 193-200): stores
`false` into `reconnecting` and joins the background thread. -/
def Gamepad.stopReconnectionThread (s : Gamepad) : Gamepad :=
  {s with reconnecting := false}

/-- Gamepad::startReconnectionThread (Gamepad.cpp lines 176-188) as seen
from the foreground: `reconnecting.exchange(true)` leaves the flag true
whether or not a thread was already running. -/
def Gamepad.startReconnectionThread (s : Gamepad) : Gamepad :=
  {s with reconnecting := true}

/-- Gamepad::safeOpen (Gamepad.cpp lines 219-228): `newFd` is the value
returned by `open(path, O_RDONLY | O_NONBLOCK)` (-1 on failure); it is
swapped into `fd` and returned, and the stale descriptor (when valid) is
closed inside the same critical section.  The close touches only the OS
resource, not the handle fields; its effect is modelled in `FdSystem`
below.  No status classification happens here. -/
def Gamepad.safeOpen (s : Gamepad) (newFd : Int) : Int × Gamepad :=
  (newFd, {s with fd := newFd})

/-- Gamepad::safeClose (Gamepad.cpp lines 234-242): `fd` is set to -1; when
the old descriptor was valid the result of `close(oldFd)` (the argument
`closeRet`) is returned, otherwise 0 is returned without any syscall. -/
def Gamepad.safeClose (s : Gamepad) (closeRet : Int) : Int × Gamepad :=
  if 0 ≤ s.fd then (closeRet, {s with fd := -1})
  else (0, {s with fd := -1})

/-- Gamepad::openStream (Gamepad.cpp lines 122-128): stop the reconnection
thread, record the path, then safeOpen. -/
def Gamepad.openStream (s : Gamepad) (path : String) (newFd : Int) :
    Int × Gamepad :=
  Gamepad.safeOpen {s.stopReconnectionThread with path := path} newFd

/-- Gamepad::closeStream (Gamepad.cpp lines 134-139): stop the reconnection
thread, then safeClose. -/
def Gamepad.closeStream (s : Gamepad) (closeRet : Int) : Int × Gamepad :=
  s.stopReconnectionThread.safeClose closeRet

/-- Gamepad::refresh (Gamepad.cpp lines 41-69): when `reconnecting` is set
the call returns at once; otherwise the reconnection thread is stopped,
the drain loop folds in `events` (the records read before `safeRead`
first returns a non-positive count), `errno` — passed as `finalErrno` —
is classified, and when the resulting status is an error the
reconnection thread is started. -/
def Gamepad.refresh (s : Gamepad) (events : List JSEvent) (finalErrno : Int) :
    Option Gamepad :=
  if s.reconnecting then some s
  else
    (s.stopReconnectionThread.drainEvents events).map fun s1 =>
      let s2 := s1.updateStatus finalErrno
      if s2.getErr then s2.startReconnectionThread else s2

/-- One iteration of the thread body in Gamepad::startReconnectionThread
(Gamepad.cpp lines 181-187) in the case where `safeOpen(path)` returns a
non-negative descriptor: the while loop exits and `reconnecting.store(false)`
runs, ending the task.  The status field is not touched anywhere in the
thread body. -/
def Gamepad.reconnectSuccess (s : Gamepad) (newFd : Int) : Gamepad :=
  {(s.safeOpen newFd).2 with reconnecting := false}

/-- The latest matching record of a drain sequence: `lastMatch t i events`
is the value carried by the last record in `events` whose type tag is `t`
and whose index is `i`, or `none` when no record matches. -/
def lastMatch (t i : Nat) : List JSEvent → Option Int
  | [] => none
  | e :: rest =>
    match lastMatch t i rest with
    | some v => some v
    | none => if e.type = t ∧ e.number = i then some e.value else none

/-- The shared-descriptor system for the concurrency model of
Gamepad::safeOpen / Gamepad::safeClose: the handle's visible `fd`, a
freshness counter `nextFd` standing for the OS descriptor allocator (the
model never reuses a descriptor number), and the list of descriptor
numbers already passed to `close`. -/
structure FdSystem where
  fd : Int
  nextFd : Int
  closed : List Int

/-- The initial descriptor system: no stream open, nothing closed. -/
def FdInit : FdSystem := ⟨-1, 0, []⟩

/-- One atomic step of the descriptor system.  Every mutation of `fd` in
Gamepad.cpp happens inside a `std::lock_guard` on `fdMutex` (safeOpen lines
222-226, safeClose lines 236-240), and `safeRead` takes the same mutex, so
each critical section is one step and any concurrent execution of the
foreground (`openStream`/`closeStream`) with the background reconnection
task (which also runs `safeOpen`) is a sequence of these steps in some
order.  The constructors mirror the two branches of `if (oldFd >= 0)`. -/
inductive FdStep : FdSystem → FdSystem → Prop
  | safeOpenSwapOld (σ : FdSystem) (h : 0 ≤ σ.fd) :
      FdStep σ ⟨σ.nextFd, σ.nextFd + 1, σ.fd :: σ.closed⟩
  | safeOpenSwapNone (σ : FdSystem) (h : σ.fd < 0) :
      FdStep σ ⟨σ.nextFd, σ.nextFd + 1, σ.closed⟩
  | safeOpenFailOld (σ : FdSystem) (h : 0 ≤ σ.fd) :
      FdStep σ ⟨-1, σ.nextFd, σ.fd :: σ.closed⟩
  | safeOpenFailNone (σ : FdSystem) (h : σ.fd < 0) :
      FdStep σ ⟨-1, σ.nextFd, σ.closed⟩
  | safeCloseOld (σ : FdSystem) (h : 0 ≤ σ.fd) :
      FdStep σ ⟨-1, σ.nextFd, σ.fd :: σ.closed⟩
  | safeCloseNone (σ : FdSystem) (h : σ.fd < 0) :
      FdStep σ ⟨-1, σ.nextFd, σ.closed⟩

/-- The descriptor systems reachable from `FdInit` by interleaving
foreground and background critical sections. -/
inductive FdReachable : FdSystem → Prop
  | init : FdReachable FdInit
  | step {σ σ' : FdSystem} : FdReachable σ → FdStep σ σ' → FdReachable σ'

/-- The inductive invariant of the descriptor system: descriptors ever
seen are below the freshness counter, and a valid visible descriptor has
not been closed. -/
def FdInv (σ : FdSystem) : Prop :=
  0 ≤ σ.nextFd ∧ σ.fd < σ.nextFd ∧ (∀ c ∈ σ.closed, c < σ.nextFd) ∧
    (0 ≤ σ.fd → σ.fd ∉ σ.closed)

/-- A handle whose stream is open (fd = 3) with status OK and zeroed
caches: the state reached from `initGamepad` by a successful
`openStream` followed by a `refresh` whose drain ends with EAGAIN. -/
def gOpenOk : Gamepad :=
  ⟨"/dev/input/js0", 3, false, GamepadStatus.OK, fun _ => 0, fun _ => 0⟩

/-- A handle that has lost its device: descriptor closed, status IO_ERROR,
reconnection in flight. -/
def gReconErr : Gamepad :=
  ⟨"/dev/input/js0", -1, true, GamepadStatus.IO_ERROR, fun _ => 0, fun _ => 0⟩

/-- Claim C3: Gamepad::updateStatus is a pure function of the last errno
value that implements exactly the spec's table: EAGAIN (would-block under
non-blocking mode) gives OK, EBADF and EINVAL give INVALID_FILE_ERROR,
EIO gives IO_ERROR, and every other value gives ERROR (the spec's
GENERIC_ERROR); applied to a handle it writes that status and nothing
else feeds into it. -/
theorem updateStatus_exact_classification :
    statusOfErr EAGAIN = GamepadStatus.OK ∧
    statusOfErr EBADF = GamepadStatus.INVALID_FILE_ERROR ∧
    statusOfErr EINVAL = GamepadStatus.INVALID_FILE_ERROR ∧
    statusOfErr Eio = GamepadStatus.IO_ERROR ∧
    (∀ err : Int, err ≠ EAGAIN → err ≠ EBADF → err ≠ EINVAL → err ≠ Eio →
      statusOfErr err = GamepadStatus.ERROR) ∧
    (∀ (s : Gamepad) (err : Int),
      (s.updateStatus err).status = statusOfErr err) := by
  refine ⟨rfl, rfl, rfl, rfl, ?_, fun s err => rfl⟩
  intro err h1 h2 h3 h4
  unfold statusOfErr
  rw [if_neg h2, if_neg h3, if_neg h4, if_neg h1]

/-- Witness for the C3 theorem at the concrete errno value 7 (ENOENT + 5,
not one of the four special cases). -/
theorem updateStatus_exact_classification_witness :
    statusOfErr 7 = GamepadStatus.ERROR :=
  updateStatus_exact_classification.2.2.2.2.1 7
    (by decide) (by decide) (by decide) (by decide)

/-- Claim C8: for every handle state, getAxis returns 0 on any index that
is negative or at least 6, and getButton returns 0 on any index that is
negative or at least 15; both are total functions, so no access faults. -/
theorem getAxis_getButton_out_of_bounds (s : Gamepad) (index : Int) :
    (index < 0 ∨ 6 ≤ index → s.getAxis index = 0) ∧
    (index < 0 ∨ 15 ≤ index → s.getButton index = 0) := by
  constructor
  · intro h
    unfold Gamepad.getAxis
    rcases h with h | h
    · rw [dif_pos (Or.inr h)]
    · rw [dif_pos (Or.inl h)]
  · intro h
    unfold Gamepad.getButton
    rcases h with h | h
    · rw [dif_pos (Or.inr h)]
    · rw [dif_pos (Or.inl h)]

/-- Witness for the C8 theorem: index 6 is out of bounds for getAxis and
index -1 is out of bounds for getButton on the freshly constructed
handle. -/
theorem getAxis_getButton_out_of_bounds_witness :
    Gamepad.getAxis initGamepad 6 = 0 ∧
    Gamepad.getButton initGamepad (-1) = 0 :=
  ⟨(getAxis_getButton_out_of_bounds initGamepad 6).1 (Or.inr (by decide)),
   (getAxis_getButton_out_of_bounds initGamepad (-1)).2 (Or.inl (by decide))⟩

/-- Claim C7: closeStream is idempotent — after one closeStream, a second
closeStream returns 0 (success) and leaves the state exactly as the first
call left it (descriptor stays -1). -/
theorem closeStream_idempotent (s : Gamepad) (r1 r2 : Int) :
    Gamepad.closeStream (Gamepad.closeStream s r1).2 r2
      = (0, (Gamepad.closeStream s r1).2) := by
  by_cases h : 0 ≤ s.fd <;>
    simp [Gamepad.closeStream, Gamepad.safeClose, Gamepad.stopReconnectionThread, h]

/-- Claim C9: closeStream modifies only the descriptor and the
reconnection flag: the status (hence getErr), the axes and buttons
caches, and the path are unchanged in every handle state, and the
descriptor is always -1 afterwards. -/
theorem closeStream_frame (s : Gamepad) (r : Int) :
    (Gamepad.closeStream s r).2.status = s.status ∧
    (Gamepad.closeStream s r).2.getErr = s.getErr ∧
    (Gamepad.closeStream s r).2.axes = s.axes ∧
    (Gamepad.closeStream s r).2.buttons = s.buttons ∧
    (Gamepad.closeStream s r).2.path = s.path ∧
    (Gamepad.closeStream s r).2.fd = -1 ∧
    (Gamepad.closeStream s r).2.reconnecting = false := by
  by_cases h : 0 ≤ s.fd <;>
    simp [Gamepad.closeStream, Gamepad.safeClose, Gamepad.stopReconnectionThread,
      Gamepad.getErr, h]

/-- Claim C2 fails on the code: the drain loop body writes
`buttons[event.number]` / `axes[event.number]` with no bounds check
(Gamepad.cpp lines 56-59), so a type-1 record with index 20 (the buttons
array has 15 entries) or a type-2 record with index 7 (the axes array has
6 entries) triggers an out-of-bounds `std::array::operator[]` write —
undefined behaviour, modelled as `none` — instead of being silently
ignored. -/
theorem processEvent_out_of_bounds_faults :
    Gamepad.processEvent initGamepad ⟨0, 5, 1, 20⟩ = none ∧
    Gamepad.processEvent initGamepad ⟨0, 5, 2, 7⟩ = none ∧
    Gamepad.drainEvents initGamepad [⟨0, 5, 1, 20⟩] = none :=
  ⟨rfl, rfl, rfl⟩

/-- Claim C5 fails on the code: openStream never runs status
classification — `safeOpen` only swaps the descriptor.  On a handle with
status OK, an openStream whose `open` call fails (returns -1) leaves the
descriptor at -1 as claimed, but the status stays OK and getErr stays
false, so the status does not reflect the open failure (the header's doc
comment promises the error state is set). -/
theorem openStream_failure_leaves_status :
    (Gamepad.openStream gOpenOk "/dev/input/js1" (-1)).2.fd = -1 ∧
    (Gamepad.openStream gOpenOk "/dev/input/js1" (-1)).2.status
      = GamepadStatus.OK ∧
    (Gamepad.openStream gOpenOk "/dev/input/js1" (-1)).2.getErr = false :=
  ⟨rfl, rfl, rfl⟩

/-- Claim C1 fails on the code: from the fresh handle, a successful
openStream followed by a refresh ending in EAGAIN reaches `gOpenOk`
(descriptor open, status OK — the invariant holds there), but closeStream
then closes the descriptor while leaving status OK, a state in which
neither disjunct of the claimed invariant holds (closeStream never
updates the status, though its doc comment says it sets the error
state). -/
theorem closeStream_breaks_open_iff_ok_invariant :
    Gamepad.refresh (Gamepad.openStream initGamepad "/dev/input/js0" 3).2 [] EAGAIN
      = some gOpenOk ∧
    (Gamepad.closeStream gOpenOk 0).2.fd = -1 ∧
    (Gamepad.closeStream gOpenOk 0).2.getStatus = GamepadStatus.OK ∧
    ¬ ((0 ≤ (Gamepad.closeStream gOpenOk 0).2.fd ∧
          (Gamepad.closeStream gOpenOk 0).2.getStatus = GamepadStatus.OK) ∨
       ((Gamepad.closeStream gOpenOk 0).2.fd < 0 ∧
          (Gamepad.closeStream gOpenOk 0).2.getStatus ≠ GamepadStatus.OK)) := by
  refine ⟨rfl, rfl, rfl, ?_⟩
  intro h
  rcases h with ⟨h1, _⟩ | ⟨_, h2⟩
  · exact absurd h1 (by decide)
  · exact h2 rfl

/-- Counterexample to claim C4: a successful background retry attempt
(`safeOpen` returns descriptor 3) on a disconnected handle with status
IO_ERROR installs the descriptor and clears `reconnecting`, but does not
set status to OK — the thread body never touches the status field. -/
theorem reconnectSuccess_leaves_error_status :
    (Gamepad.reconnectSuccess gReconErr 3).fd = 3 ∧
    (Gamepad.reconnectSuccess gReconErr 3).reconnecting = false ∧
    (Gamepad.reconnectSuccess gReconErr 3).status = GamepadStatus.IO_ERROR ∧
    GamepadStatus.IO_ERROR ≠ GamepadStatus.OK :=
  ⟨rfl, rfl, rfl, by decide⟩

/-- Claim C4 as amended: when a retry attempt succeeds (the opened
descriptor is non-negative), the supervisor installs the new descriptor,
sets `reconnecting` to false and terminates its task, but it leaves the
status field unchanged — status becomes OK only when the next refresh
reclassifies it. -/
theorem reconnectSuccess_installs_and_terminates (s : Gamepad) (newFd : Int)
    (h : 0 ≤ newFd) :
    (s.reconnectSuccess newFd).fd = newFd ∧
    (s.reconnectSuccess newFd).reconnecting = false ∧
    (s.reconnectSuccess newFd).status = s.status :=
  ⟨rfl, rfl, rfl⟩

/-- Witness for the amended C4 theorem at the disconnected handle and the
concrete descriptor 3. -/
theorem reconnectSuccess_installs_and_terminates_witness :
    (Gamepad.reconnectSuccess gReconErr 3).fd = 3 ∧
    (Gamepad.reconnectSuccess gReconErr 3).reconnecting = false ∧
    (Gamepad.reconnectSuccess gReconErr 3).status = gReconErr.status :=
  reconnectSuccess_installs_and_terminates gReconErr 3 (by decide)

/-- Helper for C10: every reachable descriptor system satisfies the
inductive invariant `FdInv`. -/
theorem fdReachable_inv {σ : FdSystem} (h : FdReachable σ) : FdInv σ := by
  induction h with
  | init =>
    refine ⟨le_refl 0, by norm_num [FdInit], ?_, ?_⟩
    · intro c hc
      simp [FdInit] at hc
    · intro h0
      norm_num [FdInit] at h0
  | step hr hstep ih =>
    obtain ⟨hn, hfd, hcl, -⟩ := ih
    cases hstep with
    | safeOpenSwapOld hσ =>
      dsimp only [FdInv]
      refine ⟨by omega, by omega, ?_, ?_⟩
      · intro c hc
        rcases List.mem_cons.mp hc with rfl | hc2
        · omega
        · have := hcl c hc2
          omega
      · intro hge hmem
        rcases List.mem_cons.mp hmem with heq | hmem2
        · omega
        · have := hcl _ hmem2
          omega
    | safeOpenSwapNone hσ =>
      dsimp only [FdInv]
      refine ⟨by omega, by omega, ?_, ?_⟩
      · intro c hc
        have := hcl c hc
        omega
      · intro hge hmem
        have := hcl _ hmem
        omega
    | safeOpenFailOld hσ =>
      dsimp only [FdInv]
      refine ⟨by omega, by omega, ?_, ?_⟩
      · intro c hc
        rcases List.mem_cons.mp hc with rfl | hc2
        · omega
        · have := hcl c hc2
          omega
      · intro hge
        exact absurd hge (by decide)
    | safeOpenFailNone hσ =>
      dsimp only [FdInv]
      refine ⟨by omega, by omega, ?_, ?_⟩
      · intro c hc
        have := hcl c hc
        omega
      · intro hge
        exact absurd hge (by decide)
    | safeCloseOld hσ =>
      dsimp only [FdInv]
      refine ⟨by omega, by omega, ?_, ?_⟩
      · intro c hc
        rcases List.mem_cons.mp hc with rfl | hc2
        · omega
        · have := hcl c hc2
          omega
      · intro hge
        exact absurd hge (by decide)
    | safeCloseNone hσ =>
      dsimp only [FdInv]
      refine ⟨by omega, by omega, ?_, ?_⟩
      · intro c hc
        have := hcl c hc
        omega
      · intro hge
        exact absurd hge (by decide)

/-- Claim C10: in every interleaving of foreground openStream/closeStream
critical sections with background reconnection attempts (every state
reachable by `FdStep`s, each step being one `fdMutex` critical section,
the granularity the source serializes all descriptor accesses at), a
valid visible descriptor is never one that has already been closed: the
swap-in of a new descriptor and the close of the stale one happen inside
one critical section. -/
theorem no_closed_descriptor_observable (σ : FdSystem)
    (h : FdReachable σ) (hopen : 0 ≤ σ.fd) : σ.fd ∉ σ.closed :=
  (fdReachable_inv h).2.2.2 hopen

/-- Witness for the C10 theorem: after one successful safeOpen from the
initial system, descriptor 0 is visible and the closed list is empty. -/
theorem no_closed_descriptor_observable_witness :
    (⟨0, 1, []⟩ : FdSystem).fd ∉ (⟨0, 1, []⟩ : FdSystem).closed :=
  no_closed_descriptor_observable ⟨0, 1, []⟩
    (FdReachable.step FdReachable.init (FdStep.safeOpenSwapNone FdInit (by decide)))
    (by decide)

/-- Helper: getButton at an in-range index reads the buttons cache. -/
theorem getButton_val (s : Gamepad) (i : Fin 15) :
    s.getButton i.val = s.buttons i := by
  have hlt := i.isLt
  unfold Gamepad.getButton
  rw [dif_neg (by omega)]
  exact congrArg s.buttons (Fin.ext (by simp))

/-- Helper: getAxis at an in-range index reads the axes cache. -/
theorem getAxis_val (s : Gamepad) (i : Fin 6) :
    s.getAxis i.val = s.axes i := by
  have hlt := i.isLt
  unfold Gamepad.getAxis
  rw [dif_neg (by omega)]
  exact congrArg s.axes (Fin.ext (by simp))

/-- Helper for C6: the drain loop on a list of in-bounds records succeeds
and leaves, at every index, the value of the last matching record, or the
previous cache value when no record matches. -/
theorem drainEvents_lastMatch (events : List JSEvent) : ∀ s : Gamepad,
    (∀ e ∈ events, (e.type = 1 → e.number < 15) ∧ (e.type = 2 → e.number < 6)) →
    ∃ s', s.drainEvents events = some s' ∧
      (∀ i : Fin 15, s'.buttons i = (lastMatch 1 i.val events).getD (s.buttons i)) ∧
      (∀ i : Fin 6, s'.axes i = (lastMatch 2 i.val events).getD (s.axes i)) := by
  induction events with
  | nil =>
    intro s _
    exact ⟨s, rfl, fun i => rfl, fun i => rfl⟩
  | cons e rest ih =>
    intro s hin
    have he := hin e (List.mem_cons_self e rest)
    have hrest : ∀ e' ∈ rest,
        (e'.type = 1 → e'.number < 15) ∧ (e'.type = 2 → e'.number < 6) :=
      fun e' h' => hin e' (List.mem_cons_of_mem e h')
    by_cases ht1 : e.type = 1
    · have hnum : e.number < 15 := he.1 ht1
      obtain ⟨s', hd, hb, ha⟩ :=
        ih {s with buttons := Function.update s.buttons ⟨e.number, hnum⟩ e.value} hrest
      refine ⟨s', ?_, ?_, ?_⟩
      · simp [Gamepad.drainEvents, Gamepad.processEvent, ht1, hnum, hd]
      · intro i
        rw [hb i]
        cases hlm : lastMatch 1 i.val rest with
        | some v => simp [lastMatch, hlm]
        | none =>
          by_cases hni : e.number = i.val
          · simp [lastMatch, hlm, ht1, hni, Function.update_apply, Fin.ext_iff]
          · simp [lastMatch, hlm, ht1, hni, Function.update_apply, Fin.ext_iff,
              Ne.symm hni]
      · intro i
        rw [ha i]
        cases hlm : lastMatch 2 i.val rest with
        | some v => simp [lastMatch, hlm]
        | none => simp [lastMatch, hlm, ht1]
    · by_cases ht2 : e.type = 2
      · have hnum : e.number < 6 := he.2 ht2
        obtain ⟨s', hd, hb, ha⟩ :=
          ih {s with axes := Function.update s.axes ⟨e.number, hnum⟩ e.value} hrest
        refine ⟨s', ?_, ?_, ?_⟩
        · simp [Gamepad.drainEvents, Gamepad.processEvent, ht1, ht2, hnum, hd]
        · intro i
          rw [hb i]
          cases hlm : lastMatch 1 i.val rest with
          | some v => simp [lastMatch, hlm]
          | none => simp [lastMatch, hlm, ht2]
        · intro i
          rw [ha i]
          cases hlm : lastMatch 2 i.val rest with
          | some v => simp [lastMatch, hlm]
          | none =>
            by_cases hni : e.number = i.val
            · simp [lastMatch, hlm, ht2, hni, Function.update_apply, Fin.ext_iff]
            · simp [lastMatch, hlm, ht2, hni, Function.update_apply, Fin.ext_iff,
                Ne.symm hni]
      · obtain ⟨s', hd, hb, ha⟩ := ih s hrest
        refine ⟨s', ?_, ?_, ?_⟩
        · simp [Gamepad.drainEvents, Gamepad.processEvent, ht1, ht2, hd]
        · intro i
          rw [hb i]
          cases hlm : lastMatch 1 i.val rest with
          | some v => simp [lastMatch, hlm]
          | none => simp [lastMatch, hlm, ht1]
        · intro i
          rw [ha i]
          cases hlm : lastMatch 2 i.val rest with
          | some v => simp [lastMatch, hlm]
          | none => simp [lastMatch, hlm, ht2]

/-- Claim C6: after any sequence of in-bounds records is fed through the
drain loop, getButton and getAxis return the value of the last record in
the sequence with that index and the matching type tag (1 for buttons, 2
for axes), and indices with no matching record keep their previous
value. -/
theorem drain_last_write_wins (s : Gamepad) (events : List JSEvent)
    (hin : ∀ e ∈ events, (e.type = 1 → e.number < 15) ∧ (e.type = 2 → e.number < 6)) :
    ∃ s', s.drainEvents events = some s' ∧
      (∀ i : Fin 15, s'.getButton i.val
        = (lastMatch 1 i.val events).getD (s.getButton i.val)) ∧
      (∀ i : Fin 6, s'.getAxis i.val
        = (lastMatch 2 i.val events).getD (s.getAxis i.val)) := by
  obtain ⟨s', hd, hb, ha⟩ := drainEvents_lastMatch events s hin
  refine ⟨s', hd, ?_, ?_⟩
  · intro i
    rw [getButton_val, getButton_val, hb i]
  · intro i
    rw [getAxis_val, getAxis_val, ha i]

/-- Witness for the C6 theorem: two button records for index 3 (values 5
then 7) followed by one axis record for index 2 (value -200). -/
theorem drain_last_write_wins_witness :
    ∃ s', Gamepad.drainEvents initGamepad
        [⟨0, 5, 1, 3⟩, ⟨1, 7, 1, 3⟩, ⟨2, -200, 2, 2⟩] = some s' ∧
      (∀ i : Fin 15, s'.getButton i.val
        = (lastMatch 1 i.val [⟨0, 5, 1, 3⟩, ⟨1, 7, 1, 3⟩, ⟨2, -200, 2, 2⟩]).getD
            (initGamepad.getButton i.val)) ∧
      (∀ i : Fin 6, s'.getAxis i.val
        = (lastMatch 2 i.val [⟨0, 5, 1, 3⟩, ⟨1, 7, 1, 3⟩, ⟨2, -200, 2, 2⟩]).getD
            (initGamepad.getAxis i.val)) :=
  drain_last_write_wins initGamepad
    [⟨0, 5, 1, 3⟩, ⟨1, 7, 1, 3⟩, ⟨2, -200, 2, 2⟩] (by decide)
